import Mathlib

/-!
Verification of the pagination, filtering, overlay and client contracts of the
computer-vision CRUD application (React SPA frontend plus REST backend).

The frontend TypeScript sources are embedded shallowly: record types follow
src/frontend/src/api/types.ts, pure computations are translated to Lean
functions over Nat / Int / Rat, and stateful React components become explicit
state types with step functions over event lists.  The backend (FastAPI) is not
part of the source tree; where a claim depends on it, the definition is
modelled from the spec and marked as such in its doc comment.
-/

namespace CVApp

/-- Image metadata record, following interface ImageResponse in
src/frontend/src/api/types.ts. -/
structure ImageResponse where
  id : String
  filename : String
  original_url : Option String
  storage_path : String
  file_size : Nat
  status : String
  upload_timestamp : String
  created_at : String
  updated_at : String
deriving Repr, DecidableEq

/-- Detection record, following interface DetectionResponse in
src/frontend/src/api/types.ts.  Coordinates and confidence are JavaScript
numbers; they are modelled as rationals. -/
structure DetectionResponse where
  id : String
  image_id : String
  label : String
  confidence_score : ℚ
  bbox_xmin : ℚ
  bbox_ymin : ℚ
  bbox_xmax : ℚ
  bbox_ymax : ℚ
  created_at : String
  updated_at : String
deriving Repr, DecidableEq

/-- Paginated list envelope, following interface PaginatedResponse in
src/frontend/src/api/types.ts. -/
structure PaginatedResponse (T : Type) where
  items : List T
  total : Nat
  page : Nat
  page_size : Nat
  pages : Nat
  has_next : Bool
  has_previous : Bool
deriving Repr, DecidableEq

/-- Ceiling division on naturals, ceil (a / b). -/
def ceilDiv (a b : Nat) : Nat := (a + b - 1) / b

/-- Modelled from the spec: the backend pagination schema
(backend/src/schemas/common.py, not under src/).  The spec fixes
pages == ceil(total / page_size), has_next == (page * page_size < total) and
has_previous == (page > 1); items are the 1-indexed page slice of the filtered
collection. -/
def paginate {T : Type} (allItems : List T) (page pageSize : Nat) :
    PaginatedResponse T :=
  let total := allItems.length
  { items := (allItems.drop ((page - 1) * pageSize)).take pageSize
    total := total
    page := page
    page_size := pageSize
    pages := ceilDiv total pageSize
    has_next := decide (page * pageSize < total)
    has_previous := decide (1 < page) }

theorem lt_ceilDiv_iff (t ps page : Nat) (hps : 1 ≤ ps) :
    page < ceilDiv t ps ↔ page * ps < t := by
  unfold ceilDiv
  rw [Nat.lt_iff_add_one_le, Nat.le_div_iff_mul_le (by omega : 0 < ps)]
  constructor
  · intro h
    have h2 : page * ps + ps ≤ t + ps - 1 := by
      calc page * ps + ps = (page + 1) * ps := by ring
        _ ≤ t + ps - 1 := h
    omega
  · intro h
    have h2 : page * ps + ps ≤ t + ps - 1 := by omega
    calc (page + 1) * ps = page * ps + ps := by ring
      _ ≤ t + ps - 1 := h2

/-- The images-list test fixture makePage, following
src/frontend/src/__tests__/imagesListPage.spec.tsx.  Its pages returned by the
mocked listImages hard-code total = 2, page_size = 10, pages = 2,
has_next = (page < 2), has_previous = (page > 1); the nondeterministic
timestamp is a parameter. -/
def makePage (now : String) (page : Nat) : PaginatedResponse ImageResponse :=
  { items := [{ id := "img-" ++ toString page ++ "-1"
                filename := "file-" ++ toString page ++ "-1.png"
                original_url := none
                storage_path := "2025/11/12/file-" ++ toString page ++ "-1.png"
                file_size := 2048
                status := "uploaded"
                upload_timestamp := now
                created_at := now
                updated_at := now }]
    total := 2
    page := page
    page_size := 10
    pages := 2
    has_next := decide (page < 2)
    has_previous := decide (1 < page) }

/-- C1 counterexample: the PaginatedResponse value makePage 1, consumed through
the mocked listImages in the images-list test, has valid page = 1 and
page_size = 10 yet violates the claimed invariants: its pages field is 2 while
ceil(total / page_size) = ceil(2 / 10) = 1, and its has_next field is true
while page * page_size = 10 is not below total = 2. -/
theorem c1_makePage_violates_invariant :
    1 ≤ (makePage "" 1).page ∧ 1 ≤ (makePage "" 1).page_size ∧
    (makePage "" 1).pages ≠
      ceilDiv (makePage "" 1).total (makePage "" 1).page_size ∧
    (makePage "" 1).has_next = true ∧
    ¬ (makePage "" 1).page * (makePage "" 1).page_size < (makePage "" 1).total := by
  refine ⟨by decide, by decide, by decide, by decide, by decide⟩

/-- C1 (amended): every PaginatedResponse produced by the spec-modelled backend
paginator with page >= 1 and page_size >= 1 satisfies
pages == ceil(total / page_size), has_next == (page < pages)
== (page * page_size < total), and has_previous == (page > 1). -/
theorem c1_paginate_invariant {T : Type} (allItems : List T) (page pageSize : Nat)
    (hpage : 1 ≤ page) (hps : 1 ≤ pageSize) :
    (paginate allItems page pageSize).pages =
      ceilDiv (paginate allItems page pageSize).total
        (paginate allItems page pageSize).page_size ∧
    ((paginate allItems page pageSize).has_next = true ↔
      (paginate allItems page pageSize).page <
        (paginate allItems page pageSize).pages) ∧
    ((paginate allItems page pageSize).has_next = true ↔
      (paginate allItems page pageSize).page *
          (paginate allItems page pageSize).page_size <
        (paginate allItems page pageSize).total) ∧
    ((paginate allItems page pageSize).has_previous = true ↔
      1 < (paginate allItems page pageSize).page) := by
  refine ⟨rfl, ?_, ?_, ?_⟩
  · simp only [paginate, decide_eq_true_eq]
    exact (lt_ceilDiv_iff allItems.length pageSize page hps).symm
  · simp only [paginate, decide_eq_true_eq]
  · simp only [paginate, decide_eq_true_eq]

/-- C1 witness: concrete evaluation of the amended invariant at a three-element
collection, page 2, page size 2. -/
theorem c1_paginate_invariant_witness :
    (paginate [0, 1, 2] 2 2).pages =
      ceilDiv (paginate [0, 1, 2] 2 2).total (paginate [0, 1, 2] 2 2).page_size ∧
    ((paginate [0, 1, 2] 2 2).has_next = true ↔
      (paginate [0, 1, 2] 2 2).page < (paginate [0, 1, 2] 2 2).pages) ∧
    ((paginate [0, 1, 2] 2 2).has_next = true ↔
      (paginate [0, 1, 2] 2 2).page * (paginate [0, 1, 2] 2 2).page_size <
        (paginate [0, 1, 2] 2 2).total) ∧
    ((paginate [0, 1, 2] 2 2).has_previous = true ↔
      1 < (paginate [0, 1, 2] 2 2).page) :=
  c1_paginate_invariant [0, 1, 2] 2 2 (by decide) (by decide)

/-- Percentage-based CSS placement of one bounding box, as the style record in
src/frontend/src/components/DetectionsOverlay.tsx: each field is the relevant
coordinate divided by the recorded natural dimension times 100. -/
structure BoxStyle where
  left : ℚ
  top : ℚ
  width : ℚ
  height : ℚ
deriving Repr, DecidableEq

/-- The per-detection style computed inside detections.map in
src/frontend/src/components/DetectionsOverlay.tsx, with dims.w and dims.h the
recorded natural dimensions. -/
def boxStyle (d : DetectionResponse) (w h : ℚ) : BoxStyle :=
  { left := d.bbox_xmin / w * 100
    top := d.bbox_ymin / h * 100
    width := (d.bbox_xmax - d.bbox_xmin) / w * 100
    height := (d.bbox_ymax - d.bbox_ymin) / h * 100 }

/-- The overlay formula as the spec words it: left = xmin/naturalWidth*100,
top = ymin/naturalHeight*100, width = (xmax-xmin)/naturalWidth*100,
height = (ymax-ymin)/naturalHeight*100. -/
def specBoxStyle (d : DetectionResponse) (naturalWidth naturalHeight : ℚ) :
    BoxStyle :=
  { left := d.bbox_xmin / naturalWidth * 100
    top := d.bbox_ymin / naturalHeight * 100
    width := (d.bbox_xmax - d.bbox_xmin) / naturalWidth * 100
    height := (d.bbox_ymax - d.bbox_ymin) / naturalHeight * 100 }

/-- The detection of the overlay unit test (src/unnamed/part_009): bbox
(0, 0, 100, 50). -/
def overlayTestDetection : DetectionResponse :=
  { id := "1", image_id := "1", label := "object", confidence_score := mkRat 9 10
    bbox_xmin := 0, bbox_ymin := 0, bbox_xmax := 100, bbox_ymax := 50
    created_at := "", updated_at := "" }

/-- C2: the overlay computes each box style exactly by the spec formula, and on
bbox (0, 0, 100, 50) over a 200 x 100 natural image it yields
left 0, top 0, width 50, height 50 (percent). -/
theorem c2_overlay_box_style (d : DetectionResponse) (w h : ℚ) :
    boxStyle d w h = specBoxStyle d w h ∧
    boxStyle overlayTestDetection 200 100 =
      { left := 0, top := 0, width := 50, height := 50 } := by
  refine ⟨rfl, ?_⟩
  simp only [boxStyle, overlayTestDetection]
  norm_num

/-- The dims state of DetectionsOverlay: useState starts at w = 0, h = 0. -/
structure Dims where
  w : Nat
  h : Nat
deriving Repr, DecidableEq

/-- Initial dims state of DetectionsOverlay. -/
def initialDims : Dims := ⟨0, 0⟩

/-- Events that can update dims in DetectionsOverlay: the img onLoad handler,
and the mount / url-change effect, which copies the natural dimensions only
when the image element is already complete. -/
inductive OverlayEvent where
  | load (naturalWidth naturalHeight : Nat)
  | effectCheck (complete : Bool) (naturalWidth naturalHeight : Nat)
deriving Repr, DecidableEq

/-- State transition of DetectionsOverlay: handleLoad stores the natural
dimensions; the effect stores them only if the image is complete. -/
def overlayStep (s : Dims) : OverlayEvent → Dims
  | .load nw nh => ⟨nw, nh⟩
  | .effectCheck c nw nh => if c then ⟨nw, nh⟩ else s

/-- Run of the overlay component over a sequence of events from the initial
state. -/
def overlayRun (evs : List OverlayEvent) : Dims :=
  evs.foldl overlayStep initialDims

/-- Conditional rendering of DetectionsOverlay: the block mapping detections to
styled boxes is rendered only under the guard dims.w > 0; otherwise no box
exists and no division is performed. -/
def renderBoxes (dets : List DetectionResponse) (s : Dims) :
    Option (List BoxStyle) :=
  if 0 < s.w then some (dets.map (fun d => boxStyle d (s.w : ℚ) (s.h : ℚ)))
  else none

/-- Whether an overlay event records a positive natural width: a fired load
event, or the effect seeing an already complete image. -/
def eventRecordsPositiveWidth : OverlayEvent → Prop
  | .load nw _ => 0 < nw
  | .effectCheck c nw _ => c = true ∧ 0 < nw

theorem overlayRun_pos_width (s : Dims) (evs : List OverlayEvent)
    (h : 0 < (evs.foldl overlayStep s).w) :
    0 < s.w ∨ ∃ e ∈ evs, eventRecordsPositiveWidth e := by
  induction evs generalizing s with
  | nil => exact Or.inl h
  | cons e rest ih =>
    rcases ih (overlayStep s e) h with h1 | ⟨e2, he2, hpos⟩
    · cases e with
      | load nw nh =>
        exact Or.inr ⟨.load nw nh, List.mem_cons_self _ _, h1⟩
      | effectCheck c nw nh =>
        by_cases hc : c = true
        · refine Or.inr ⟨.effectCheck c nw nh, List.mem_cons_self _ _, hc, ?_⟩
          simpa [overlayStep, hc] using h1
        · simp only [overlayStep, hc, if_false] at h1
          simp only [Bool.not_eq_true] at hc
          exact Or.inl (by simpa [overlayStep, hc] using h1)
    · exact Or.inr ⟨e2, List.mem_cons_of_mem _ he2, hpos⟩

/-- C3: in the initial state (before any load event) DetectionsOverlay renders
no bounding box, and whenever a run of events leads to a state in which boxes
are rendered, the recorded width is positive and some event of the run was an
image-load (or an already-complete check) carrying a positive natural width:
the percentage divisions never run on the unknown zero dimensions. -/
theorem c3_overlay_renders_only_after_load (dets : List DetectionResponse)
    (evs : List OverlayEvent) (bs : List BoxStyle)
    (h : renderBoxes dets (overlayRun evs) = some bs) :
    renderBoxes dets initialDims = none ∧
    0 < (overlayRun evs).w ∧
    ∃ e ∈ evs, eventRecordsPositiveWidth e := by
  have hw : 0 < (overlayRun evs).w := by
    by_contra hw
    simp only [renderBoxes, if_neg hw] at h
    exact Option.noConfusion h
  refine ⟨rfl, hw, ?_⟩
  rcases overlayRun_pos_width initialDims evs hw with h0 | hex
  · exact absurd h0 (by decide)
  · exact hex

/-- C3 witness: after a single load event with natural size 200 x 100, the
overlay renders the test detection at the computed style. -/
theorem c3_overlay_witness :
    renderBoxes [overlayTestDetection] (overlayRun [.load 200 100]) =
      some [boxStyle overlayTestDetection 200 100] ∧
    renderBoxes [overlayTestDetection] initialDims = none ∧
    0 < (overlayRun [.load 200 100]).w ∧
    ∃ e ∈ [OverlayEvent.load 200 100], eventRecordsPositiveWidth e := by
  have h : renderBoxes [overlayTestDetection] (overlayRun [.load 200 100]) =
      some [boxStyle overlayTestDetection 200 100] := rfl
  exact ⟨h, c3_overlay_renders_only_after_load [overlayTestDetection]
    [.load 200 100] [boxStyle overlayTestDetection 200 100] h⟩

/-- Modelled from the spec: backend pagination validation (the FastAPI route
layer is not under src/; the task list requires validating page and page_size
ranges).  page is 1-indexed; page < 1 or page_size < 1 fails validation with an
error instead of clamping. -/
def validatePagination (page pageSize : Int) : Except String (Nat × Nat) :=
  if page < 1 then .error "page must be at least 1"
  else if pageSize < 1 then .error "page_size must be at least 1"
  else .ok (page.toNat, pageSize.toNat)

/-- Whether the first character list occurs at the head of the second. -/
def leadsWith : List Char → List Char → Bool
  | [], _ => true
  | _ :: _, [] => false
  | a :: as, b :: bs => a == b && leadsWith as bs

/-- Whether the first character list occurs contiguously anywhere inside the
second (substring containment). -/
def containsSub (sub : List Char) : List Char → Bool
  | [] => leadsWith sub []
  | b :: bs => leadsWith sub (b :: bs) || containsSub sub bs

/-- Modelled from the spec: the conjunctive image filter of GET /images -
status equality AND case-insensitive filename substring containment. -/
def imageMatches (status : Option String) (filenameSubstr : Option String)
    (img : ImageResponse) : Bool :=
  (match status with
   | none => true
   | some s => img.status == s) &&
  (match filenameSubstr with
   | none => true
   | some sub => containsSub sub.toLower.toList img.filename.toLower.toList)

/-- Modelled from the spec: the conjunctive detection filter of
GET /detections - label equality AND confidence_score at least the requested
minimum. -/
def detectionMatches (label : Option String) (minConf : Option ℚ)
    (d : DetectionResponse) : Bool :=
  (match label with
   | none => true
   | some l => d.label == l) &&
  (match minConf with
   | none => true
   | some m => decide (m ≤ d.confidence_score))

/-- Modelled from the spec: backend GET /images - validate pagination, filter
conjunctively, paginate the filtered collection. -/
def listImagesModel (store : List ImageResponse) (page pageSize : Int)
    (status filenameSubstr : Option String) :
    Except String (PaginatedResponse ImageResponse) :=
  match validatePagination page pageSize with
  | .error e => .error e
  | .ok (p, ps) => .ok (paginate (store.filter (imageMatches status filenameSubstr)) p ps)

/-- Modelled from the spec: backend GET /detections - validate pagination,
filter conjunctively by label and minimum confidence, paginate. -/
def listDetectionsModel (store : List DetectionResponse) (page pageSize : Int)
    (label : Option String) (minConf : Option ℚ) :
    Except String (PaginatedResponse DetectionResponse) :=
  match validatePagination page pageSize with
  | .error e => .error e
  | .ok (p, ps) => .ok (paginate (store.filter (detectionMatches label minConf)) p ps)

/-- The makeDet fabricator of the detections-page test
(src/frontend/src/__tests__/detectionsPage.spec.tsx): bbox (0, 0, 1, 1), image
img-1, timestamps a parameter. -/
def makeDet (now id label : String) (conf : ℚ) : DetectionResponse :=
  { id := id, image_id := "img-1", label := label, confidence_score := conf
    bbox_xmin := 0, bbox_ymin := 0, bbox_xmax := 1, bbox_ymax := 1
    created_at := now, updated_at := now }

/-- The base rows of the detections-page test fixture. -/
def pageDataBase (now : String) : List DetectionResponse :=
  [makeDet now "d1" "cat" (mkRat 95 100),
   makeDet now "d2" "dog" (mkRat 60 100),
   makeDet now "d3" "cat" (mkRat 90 100)]

/-- The filtering body of the pageData fixture: the label filter is applied
only when labelFilter is truthy (a supplied, non-empty string); the confidence
filter is applied whenever min is supplied (also at 0). -/
def pageDataFilter (base : List DetectionResponse) (labelFilter : Option String)
    (min : Option ℚ) : List DetectionResponse :=
  let items :=
    match labelFilter with
    | some l => if l == "" then base else base.filter (fun i => i.label == l)
    | none => base
  match min with
  | some m => items.filter (fun i => decide (m ≤ i.confidence_score))
  | none => items

/-- The pageData fixture of the detections-page test: the filtered rows wrapped
in a single-page envelope. -/
def pageData (now : String) (labelFilter : Option String) (min : Option ℚ) :
    PaginatedResponse DetectionResponse :=
  let items := pageDataFilter (pageDataBase now) labelFilter min
  { items := items, total := items.length, page := 1, page_size := 20
    pages := 1, has_next := false, has_previous := false }

theorem mem_paginate {T : Type} {allItems : List T} {page pageSize : Nat}
    {d : T} (h : d ∈ (paginate allItems page pageSize).items) : d ∈ allItems :=
  List.mem_of_mem_drop (List.mem_of_mem_take h)

/-- C4: when both a label filter and a minimum-confidence filter are supplied,
every returned item matches both conjunctively: its label equals the requested
label and its confidence_score is not below the requested minimum.  This holds
for the spec-modelled backend listDetections and for the pageData fixture of
the detections-page test (whose label filter is active for any non-empty
label). -/
theorem c4_filters_conjunctive (store : List DetectionResponse)
    (page pageSize : Int) (l : String) (m : ℚ)
    (resp : PaginatedResponse DetectionResponse) (now : String)
    (d : DetectionResponse)
    (hok : listDetectionsModel store page pageSize (some l) (some m) = .ok resp) :
    (d ∈ resp.items → d.label = l ∧ m ≤ d.confidence_score) ∧
    (l ≠ "" → d ∈ (pageData now (some l) (some m)).items →
      d.label = l ∧ m ≤ d.confidence_score) := by
  constructor
  · intro hd
    unfold listDetectionsModel at hok
    cases hv : validatePagination page pageSize with
    | error e => rw [hv] at hok; exact Except.noConfusion hok
    | ok pps =>
      rw [hv] at hok
      obtain ⟨p, ps⟩ := pps
      simp only [Except.ok.injEq] at hok
      subst hok
      have hmem := mem_paginate hd
      have hmatch := (List.mem_filter.mp hmem).2
      simp only [detectionMatches, Bool.and_eq_true, beq_iff_eq,
        decide_eq_true_eq] at hmatch
      exact hmatch
  · intro hl hd
    simp only [pageData, pageDataFilter] at hd
    rw [if_neg (by simpa using hl)] at hd
    have h1 := List.mem_filter.mp hd
    have h2 := List.mem_filter.mp h1.1
    refine ⟨by simpa using h2.2, by simpa using h1.2⟩

/-- C4 witness: with label cat and minimum confidence 0.93 supplied, the
surviving fixture row d1 indeed has label cat and confidence 0.95 at least
0.93, both for the spec-modelled backend and for the fixture. -/
theorem c4_filters_conjunctive_witness :
    ((makeDet "" "d1" "cat" (mkRat 95 100)).label = "cat" ∧
      mkRat 93 100 ≤ (makeDet "" "d1" "cat" (mkRat 95 100)).confidence_score) ∧
    ((makeDet "" "d1" "cat" (mkRat 95 100)).label = "cat" ∧
      mkRat 93 100 ≤ (makeDet "" "d1" "cat" (mkRat 95 100)).confidence_score) := by
  have h := c4_filters_conjunctive (pageDataBase "") 1 20 "cat" (mkRat 93 100)
    { items := [makeDet "" "d1" "cat" (mkRat 95 100)], total := 1, page := 1
      page_size := 20, pages := 1, has_next := false, has_previous := false }
    "" (makeDet "" "d1" "cat" (mkRat 95 100)) (by rfl)
  exact ⟨h.1 (by decide), h.2 (by decide) (by decide)⟩

/-- C5: both list operations are 1-indexed and validate rather than clamp: a
request with page < 1 or pageSize < 1 yields a validation error (for both
listImages and listDetections), and a valid request yields a response whose
page equals the requested page unchanged and whose items are the slice of the
filtered collection starting at offset (page - 1) * page_size. -/
theorem c5_pagination_validation (storeI : List ImageResponse)
    (storeD : List DetectionResponse) (page pageSize : Int)
    (status filenameSubstr label : Option String) (minConf : Option ℚ) :
    (page < 1 ∨ pageSize < 1 →
      (∃ e, listImagesModel storeI page pageSize status filenameSubstr = .error e) ∧
      (∃ e, listDetectionsModel storeD page pageSize label minConf = .error e)) ∧
    (1 ≤ page → 1 ≤ pageSize →
      ∃ r, listImagesModel storeI page pageSize status filenameSubstr = .ok r ∧
        r.page = page.toNat ∧ r.page_size = pageSize.toNat ∧
        r.items = ((storeI.filter (imageMatches status filenameSubstr)).drop
          ((page.toNat - 1) * pageSize.toNat)).take pageSize.toNat) := by
  constructor
  · intro hbad
    have hv : ∃ e, validatePagination page pageSize = .error e := by
      unfold validatePagination
      rcases hbad with h | h
      · exact ⟨_, if_pos h⟩
      · by_cases h1 : page < 1
        · exact ⟨_, if_pos h1⟩
        · rw [if_neg h1, if_pos h]
          exact ⟨_, rfl⟩
    obtain ⟨e, he⟩ := hv
    constructor
    · exact ⟨e, by unfold listImagesModel; rw [he]⟩
    · exact ⟨e, by unfold listDetectionsModel; rw [he]⟩
  · intro hp hps
    have hv : validatePagination page pageSize = .ok (page.toNat, pageSize.toNat) := by
      unfold validatePagination
      rw [if_neg (by omega), if_neg (by omega)]
    refine ⟨_, by unfold listImagesModel; rw [hv], rfl, rfl, rfl⟩

/-- C5 witness: page 0 with page size 10 fails validation for both list
operations, and page 1 with page size 10 over the empty store succeeds with
the requested page echoed back and the first slice returned. -/
theorem c5_pagination_validation_witness :
    ((∃ e, listImagesModel [] 0 10 none none = .error e) ∧
      (∃ e, listDetectionsModel [] 0 10 none none = .error e)) ∧
    (∃ r, listImagesModel [] 1 10 none none = .ok r ∧
      r.page = (1 : Int).toNat ∧ r.page_size = (10 : Int).toNat ∧
      r.items = ((List.filter (imageMatches none none) []).drop
        (((1 : Int).toNat - 1) * (10 : Int).toNat)).take (10 : Int).toNat) :=
  ⟨(c5_pagination_validation [] [] 0 10 none none none none).1 (Or.inl (by decide)),
   (c5_pagination_validation [] [] 1 10 none none none none).2 (by decide) (by decide)⟩

/-- Lifecycle of the useMutation hook backing the upload form. -/
inductive MutationStatus where
  | idle
  | pending
  | success
  | failure (message : String)
deriving Repr, DecidableEq

/-- One entry of the toast list in src/frontend/src/components/Toast.tsx. -/
structure ToastItem where
  id : Nat
  message : String
  isError : Bool
deriving Repr, DecidableEq

/-- pushToast in Toast.tsx appends a fresh toast to the list. -/
def pushToast (ts : List ToastItem) (id : Nat) (message : String)
    (isError : Bool) : List ToastItem :=
  ts ++ [⟨id, message, isError⟩]

/-- Dismissal delay scheduled by pushToast via setTimeout (milliseconds). -/
def toastDismissMs : Nat := 4000

/-- The removal scheduled by pushToast after toastDismissMs: the toast list is
filtered by id. -/
def expireToast (ts : List ToastItem) (id : Nat) : List ToastItem :=
  ts.filter (fun t => t.id != id)

/-- Component state of ImageUploadForm (src/unnamed/part_010): the chosen file
(name), the mutation status, the ambient toast list and a fresh toast id. -/
structure UploadFormState where
  file : Option String
  status : MutationStatus
  toasts : List ToastItem
  nextToastId : Nat
deriving Repr, DecidableEq

/-- Initial state of ImageUploadForm: no file chosen, mutation idle. -/
def initialUploadFormState : UploadFormState :=
  { file := none, status := .idle, toasts := [], nextToastId := 0 }

/-- The submit button guard of ImageUploadForm:
disabled when no file is chosen or mutation.isPending. -/
def submitDisabled (s : UploadFormState) : Bool :=
  s.file.isNone || s.status == .pending

/-- Events of ImageUploadForm: the file input onChange, the form submit, and
the resolution of the upload request (onSuccess with the uploaded record, or
onError with the error message). -/
inductive UploadEvent where
  | chooseFile (f : Option String)
  | submit
  | uploadResolved (filename : String)
  | uploadRejected (message : String)
deriving Repr, DecidableEq

/-- State transition of ImageUploadForm.  Submit starts the mutation only when
the button is enabled.  onSuccess pushes the Subido toast, invokes onUploaded
and clears the chosen file; onError pushes the error toast and leaves the
chosen file untouched. -/
def uploadStep (s : UploadFormState) : UploadEvent → UploadFormState
  | .chooseFile f => { s with file := f }
  | .submit => if submitDisabled s then s else { s with status := .pending }
  | .uploadResolved fn =>
      if s.status == .pending then
        { file := none
          status := .success
          toasts := pushToast s.toasts s.nextToastId ("Subido: " ++ fn) false
          nextToastId := s.nextToastId + 1 }
      else s
  | .uploadRejected m =>
      if s.status == .pending then
        { s with
          status := .failure m
          toasts := pushToast s.toasts s.nextToastId m true
          nextToastId := s.nextToastId + 1 }
      else s

/-- The inline error paragraph of ImageUploadForm: rendered exactly when
mutation.isError, with the error message. -/
def renderedUploadError (s : UploadFormState) : Option String :=
  match s.status with
  | .failure m => some m
  | _ => none

/-- C6: the submit button is disabled exactly while no file is chosen or the
upload is in flight; resolving a pending upload successfully clears the chosen
file and pushes a confirmation toast that is transient (its scheduled expiry
removes it); rejecting a pending upload surfaces the error message, pushes an
error toast, and leaves the chosen file unchanged, so with a file still chosen
the submit button is enabled again for a retry. -/
theorem c6_upload_form (s : UploadFormState) (fn m : String)
    (hp : s.status = .pending) :
    (∀ t : UploadFormState,
      submitDisabled t = true ↔ t.file = none ∨ t.status = .pending) ∧
    ((uploadStep s (.uploadResolved fn)).file = none ∧
      (⟨s.nextToastId, "Subido: " ++ fn, false⟩ : ToastItem) ∈
        (uploadStep s (.uploadResolved fn)).toasts ∧
      (⟨s.nextToastId, "Subido: " ++ fn, false⟩ : ToastItem) ∉
        expireToast (uploadStep s (.uploadResolved fn)).toasts s.nextToastId) ∧
    ((uploadStep s (.uploadRejected m)).file = s.file ∧
      renderedUploadError (uploadStep s (.uploadRejected m)) = some m ∧
      (⟨s.nextToastId, m, true⟩ : ToastItem) ∈
        (uploadStep s (.uploadRejected m)).toasts ∧
      (s.file ≠ none →
        submitDisabled (uploadStep s (.uploadRejected m)) = false)) := by
  have hpend : (s.status == .pending) = true := by rw [hp]; rfl
  refine ⟨?_, ?_, ?_⟩
  · intro t
    constructor
    · intro h
      rcases Bool.or_eq_true _ _ |>.mp h with h1 | h1
      · exact Or.inl (Option.isNone_iff_eq_none.mp h1)
      · exact Or.inr (by simpa using h1)
    · intro h
      rcases h with h1 | h1
      · simp [submitDisabled, h1]
      · simp [submitDisabled, h1]
  · simp [uploadStep, hpend, pushToast, expireToast, List.mem_filter]
  · refine ⟨?_, ?_, ?_, ?_⟩
    · simp [uploadStep, hpend]
    · simp [uploadStep, hpend, renderedUploadError]
    · simp [uploadStep, hpend, pushToast]
    · intro hf
      cases hfile : s.file with
      | none => exact absurd hfile hf
      | some v => simp [uploadStep, hpend, submitDisabled, hfile]

/-- C6 witness: concrete pending state with cat.jpg chosen; success clears the
file and pushes the transient toast, failure keeps the file and shows the
message. -/
theorem c6_upload_form_witness :
    (∀ t : UploadFormState,
      submitDisabled t = true ↔ t.file = none ∨ t.status = .pending) ∧
    ((uploadStep ⟨some "cat.jpg", .pending, [], 0⟩ (.uploadResolved "cat.jpg")).file = none ∧
      (⟨0, "Subido: " ++ "cat.jpg", false⟩ : ToastItem) ∈
        (uploadStep ⟨some "cat.jpg", .pending, [], 0⟩ (.uploadResolved "cat.jpg")).toasts ∧
      (⟨0, "Subido: " ++ "cat.jpg", false⟩ : ToastItem) ∉
        expireToast (uploadStep ⟨some "cat.jpg", .pending, [], 0⟩
          (.uploadResolved "cat.jpg")).toasts 0) ∧
    ((uploadStep ⟨some "cat.jpg", .pending, [], 0⟩ (.uploadRejected "413 Payload Too Large: file too big")).file = some "cat.jpg" ∧
      renderedUploadError (uploadStep ⟨some "cat.jpg", .pending, [], 0⟩
        (.uploadRejected "413 Payload Too Large: file too big")) =
          some "413 Payload Too Large: file too big" ∧
      (⟨0, "413 Payload Too Large: file too big", true⟩ : ToastItem) ∈
        (uploadStep ⟨some "cat.jpg", .pending, [], 0⟩
          (.uploadRejected "413 Payload Too Large: file too big")).toasts ∧
      ((⟨some "cat.jpg", .pending, [], 0⟩ : UploadFormState).file ≠ none →
        submitDisabled (uploadStep ⟨some "cat.jpg", .pending, [], 0⟩
          (.uploadRejected "413 Payload Too Large: file too big")) = false)) :=
  c6_upload_form ⟨some "cat.jpg", .pending, [], 0⟩ "cat.jpg"
    "413 Payload Too Large: file too big" rfl

/-- Filter and pagination state held in useState by ImagesListPage
(src/frontend/src/pages/ImagesListPage.tsx): page (initially 1), status filter
and filename filter (initially empty); pageSize is fixed at 10. -/
structure ImagesPageFilters where
  page : Nat
  status : String
  filenameFilter : String
deriving Repr, DecidableEq

/-- Filter and pagination state held in useState by DetectionsPage
(src/unnamed/part_007): page (initially 1), label filter (initially empty) and
optional minimum confidence; pageSize is fixed at 20. -/
structure DetectionsPageFilters where
  page : Nat
  label : String
  minConf : Option ℚ
deriving Repr, DecidableEq

/-- Observable state of one useQuery instance: the current query key, the data
shown (possibly carried over from a previous key), whether a fetch is in
flight, and the surfaced error message. -/
structure QueryState (K D : Type) where
  key : K
  data : Option D
  fetching : Bool
  errorMsg : Option String
deriving Repr

/-- Query lifecycle events: the key changes (a new page or filter is
requested), the in-flight fetch resolves with data, or it fails. -/
inductive QueryEvent (K D : Type) where
  | setKey (k : K)
  | resolveOk (d : D)
  | resolveErr (m : String)
deriving Repr

/-- Transition of one useQuery instance.  kpd is the keepPreviousData option:
both list pages pass keepPreviousData true, so on a key change the previous
data stays visible while the new fetch is in flight; with kpd false the data
would flash to empty. -/
def queryStep {K D : Type} (kpd : Bool) (s : QueryState K D) :
    QueryEvent K D → QueryState K D
  | .setKey k =>
      { key := k
        data := if kpd then s.data else none
        fetching := true
        errorMsg := none }
  | .resolveOk d => { s with data := some d, fetching := false, errorMsg := none }
  | .resolveErr m => { s with fetching := false, errorMsg := some m }

/-- Interactive controls rendered by the list pages.  The constructors cover
every button and input appearing in the JSX of ImagesListPage and
DetectionsPage, plus a retry control for comparison with the spec. -/
inductive PageControl where
  | statusInput
  | filenameInput
  | labelInput
  | minConfInput
  | applyFiltersButton
  | prevButton
  | nextButton
  | retryButton
deriving Repr, DecidableEq

/-- What a list page shows for a given query state: the loading line, the
error line, the table (present only when data is available) and the list of
interactive controls. -/
structure RenderedListPage (D : Type) where
  loadingShown : Bool
  errorMsg : Option String
  tableData : Option D
  controls : List PageControl
deriving Repr

/-- Render of ImagesListPage: filter inputs and the apply button are always
present; the error paragraph shows the message; the table with prev and next
buttons appears only when data is present.  No retry control exists in the
JSX. -/
def renderImagesListPage
    (q : QueryState (Nat × String × String) (PaginatedResponse ImageResponse)) :
    RenderedListPage (PaginatedResponse ImageResponse) :=
  { loadingShown := q.data.isNone && q.fetching
    errorMsg := q.errorMsg
    tableData := q.data
    controls := [.statusInput, .filenameInput, .applyFiltersButton] ++
      (match q.data with
       | some _ => [.prevButton, .nextButton]
       | none => []) }

/-- Render of DetectionsPage: label and min-confidence inputs and the apply
button are always present; the error paragraph shows the message; the table
with prev and next buttons appears only when data is present.  No retry
control exists in the JSX. -/
def renderDetectionsPage
    (q : QueryState (Nat × String × Option ℚ) (PaginatedResponse DetectionResponse)) :
    RenderedListPage (PaginatedResponse DetectionResponse) :=
  { loadingShown := q.data.isNone && q.fetching
    errorMsg := q.errorMsg
    tableData := q.data
    controls := [.labelInput, .minConfInput, .applyFiltersButton] ++
      (match q.data with
       | some _ => [.prevButton, .nextButton]
       | none => []) }

/-- The query key of ImagesListPage, from queryKey
[images, page, status, filenameFilter]. -/
def imagesKey (f : ImagesPageFilters) : Nat × String × String :=
  (f.page, f.status, f.filenameFilter)

/-- The query key of DetectionsPage, from queryKey [dets, page, label,
minConf]. -/
def detectionsKey (f : DetectionsPageFilters) : Nat × String × Option ℚ :=
  (f.page, f.label, f.minConf)

/-- User navigation events of ImagesListPage: editing a filter input, the
apply-filters button (page back to 1), and the pagination buttons (prev clamps
at 1). -/
inductive ImagesPageEvent where
  | setStatus (v : String)
  | setFilenameFilter (v : String)
  | applyFilters
  | nextPage
  | prevPage
deriving Repr, DecidableEq

/-- Effect of an ImagesListPage navigation event on the filter state. -/
def imagesFiltersStep (f : ImagesPageFilters) :
    ImagesPageEvent → ImagesPageFilters
  | .setStatus v => { f with status := v }
  | .setFilenameFilter v => { f with filenameFilter := v }
  | .applyFilters => { f with page := 1 }
  | .nextPage => { f with page := f.page + 1 }
  | .prevPage => { f with page := max 1 (f.page - 1) }

/-- Full step of ImagesListPage: a navigation event updates the filter state
and, through the changed query key, puts the query in flight
(keepPreviousData true). -/
def imagesPageStep
    (s : ImagesPageFilters ×
      QueryState (Nat × String × String) (PaginatedResponse ImageResponse))
    (e : ImagesPageEvent) :
    ImagesPageFilters ×
      QueryState (Nat × String × String) (PaginatedResponse ImageResponse) :=
  let f2 := imagesFiltersStep s.1 e
  (f2, queryStep true s.2 (.setKey (imagesKey f2)))

/-- User navigation events of DetectionsPage: editing the label or minimum
confidence input (clearing the number input yields none), the apply button
(page back to 1), and the pagination buttons (prev clamps at 1). -/
inductive DetectionsPageEvent where
  | setLabel (v : String)
  | setMinConf (v : Option ℚ)
  | applyFilters
  | nextPage
  | prevPage
deriving Repr, DecidableEq

/-- Effect of a DetectionsPage navigation event on the filter state. -/
def detectionsFiltersStep (f : DetectionsPageFilters) :
    DetectionsPageEvent → DetectionsPageFilters
  | .setLabel v => { f with label := v }
  | .setMinConf v => { f with minConf := v }
  | .applyFilters => { f with page := 1 }
  | .nextPage => { f with page := f.page + 1 }
  | .prevPage => { f with page := max 1 (f.page - 1) }

/-- Full step of DetectionsPage: a navigation event updates the filter state
and, through the changed query key, puts the query in flight
(keepPreviousData true, as passed by its useQuery). -/
def detectionsPageStep
    (s : DetectionsPageFilters ×
      QueryState (Nat × String × Option ℚ) (PaginatedResponse DetectionResponse))
    (e : DetectionsPageEvent) :
    DetectionsPageFilters ×
      QueryState (Nat × String × Option ℚ) (PaginatedResponse DetectionResponse) :=
  let f2 := detectionsFiltersStep s.1 e
  (f2, queryStep true s.2 (.setKey (detectionsKey f2)))

/-- C7 counterexample: ImagesListPage in a concrete fetch-failure state (error
message surfaced, no cached data) renders no retry control: the complete
control list of the JSX contains only the two filter inputs and the
apply-filters button, so the claimed retry action on fetch failure does not
exist. -/
theorem c7_no_retry_control :
    (renderImagesListPage
      { key := (1, "", ""), data := none, fetching := false
        errorMsg := some "500 Internal Server Error: boom" }).errorMsg =
      some "500 Internal Server Error: boom" ∧
    PageControl.retryButton ∉
      (renderImagesListPage
        { key := (1, "", ""), data := none, fetching := false
          errorMsg := some "500 Internal Server Error: boom" }).controls ∧
    PageControl.retryButton ∉
      (renderDetectionsPage
        { key := (1, "", none), data := none, fetching := false
          errorMsg := some "500 Internal Server Error: boom" }).controls := by
  refine ⟨rfl, by decide, by decide⟩

/-- C7 (amended): both list pages keep the previously fetched page visible
while the request for a new page or filter is in flight (keepPreviousData:
after any navigation event the query is fetching yet the rendered table still
shows the previous data, whereas with keepPreviousData false it would flash to
empty), and a fetch failure surfaces the error message while leaving the
filter state untouched; no dedicated retry control is rendered. -/
theorem c7_keep_previous_data (f : ImagesPageFilters)
    (q : QueryState (Nat × String × String) (PaginatedResponse ImageResponse))
    (fd : DetectionsPageFilters)
    (qd : QueryState (Nat × String × Option ℚ) (PaginatedResponse DetectionResponse))
    (e : ImagesPageEvent) (ed : DetectionsPageEvent)
    (d : PaginatedResponse ImageResponse)
    (dd : PaginatedResponse DetectionResponse) (m : String)
    (hdata : q.data = some d) (hdd : qd.data = some dd) :
    ((imagesPageStep (f, q) e).2.fetching = true ∧
      (renderImagesListPage (imagesPageStep (f, q) e).2).tableData = some d ∧
      (queryStep false q (.setKey (imagesKey (imagesFiltersStep f e)))).data = none) ∧
    ((detectionsPageStep (fd, qd) ed).2.fetching = true ∧
      (renderDetectionsPage (detectionsPageStep (fd, qd) ed).2).tableData = some dd ∧
      (queryStep false qd (.setKey (detectionsKey (detectionsFiltersStep fd ed)))).data = none) ∧
    ((renderImagesListPage (queryStep true q (.resolveErr m))).errorMsg = some m ∧
      (renderDetectionsPage (queryStep true qd (.resolveErr m))).errorMsg = some m) ∧
    (queryStep true qd (.resolveErr m)).key = qd.key := by
  refine ⟨⟨rfl, ?_, rfl⟩, ⟨rfl, ?_, rfl⟩, ⟨rfl, rfl⟩, rfl⟩
  · simp [imagesPageStep, queryStep, renderImagesListPage, hdata]
  · simp [detectionsPageStep, queryStep, renderDetectionsPage, hdd]

/-- C7 witness: concrete runs of ImagesListPage and DetectionsPage at page 1
with loaded data; pressing next on either page keeps the loaded page rendered
while the page-2 request is in flight, and a later failure surfaces the
message. -/
theorem c7_keep_previous_data_witness :
    ((imagesPageStep (⟨1, "", ""⟩,
        { key := (1, "", ""), data := some (makePage "" 1), fetching := false
          errorMsg := none }) .nextPage).2.fetching = true ∧
      (renderImagesListPage (imagesPageStep (⟨1, "", ""⟩,
        { key := (1, "", ""), data := some (makePage "" 1), fetching := false
          errorMsg := none }) .nextPage).2).tableData = some (makePage "" 1) ∧
      (queryStep false
        { key := (1, "", ""), data := some (makePage "" 1), fetching := false
          errorMsg := none }
        (.setKey (imagesKey (imagesFiltersStep ⟨1, "", ""⟩ .nextPage)))).data = none) ∧
    ((detectionsPageStep (⟨1, "", none⟩,
        { key := (1, "", none), data := some (pageData "" none none)
          fetching := false, errorMsg := none }) .nextPage).2.fetching = true ∧
      (renderDetectionsPage (detectionsPageStep (⟨1, "", none⟩,
        { key := (1, "", none), data := some (pageData "" none none)
          fetching := false, errorMsg := none }) .nextPage).2).tableData =
        some (pageData "" none none) ∧
      (queryStep false
        { key := (1, "", none), data := some (pageData "" none none)
          fetching := false, errorMsg := none }
        (.setKey (detectionsKey
          (detectionsFiltersStep ⟨1, "", none⟩ .nextPage)))).data = none) ∧
    ((renderImagesListPage (queryStep true
        { key := (1, "", ""), data := some (makePage "" 1), fetching := false
          errorMsg := none } (.resolveErr "network down"))).errorMsg =
        some "network down" ∧
      (renderDetectionsPage (queryStep true
        { key := (1, "", none), data := some (pageData "" none none)
          fetching := false, errorMsg := none }
        (.resolveErr "network down"))).errorMsg = some "network down") ∧
    (queryStep true
      ({ key := (1, "", none), data := some (pageData "" none none)
         fetching := false, errorMsg := none } :
        QueryState (Nat × String × Option ℚ)
          (PaginatedResponse DetectionResponse))
      (.resolveErr "network down")).key = (1, "", none) :=
  c7_keep_previous_data ⟨1, "", ""⟩
    { key := (1, "", ""), data := some (makePage "" 1), fetching := false
      errorMsg := none }
    ⟨1, "", none⟩
    { key := (1, "", none), data := some (pageData "" none none)
      fetching := false, errorMsg := none }
    .nextPage .nextPage (makePage "" 1) (pageData "" none none)
    "network down" rfl rfl

/-- The six public functions of the API client
(src/frontend/src/api/types.ts). -/
inductive ApiCall where
  | uploadImage
  | getImage
  | listImages
  | analyzeImage
  | listImageDetections
  | listDetections
deriving Repr, DecidableEq

/-- How each client function is consumed by the pages: uploadImage
(ImageUploadForm) and analyzeImage (ImageDetailPage) run through useMutation;
the reads run through useQuery. -/
def isMutationCall : ApiCall → Bool
  | .uploadImage => true
  | .analyzeImage => true
  | _ => false

/-- Query retry count from the QueryClient defaultOptions in
src/frontend/src/main.tsx: queries retry once. -/
def queryRetryLimit : Nat := 1

/-- Mutation retry count from the QueryClient defaultOptions in
src/frontend/src/main.tsx: mutations retry zero times, failing fast. -/
def mutationRetryLimit : Nat := 0

/-- Automatic retries applied to a client call under the QueryClient
configuration. -/
def retryLimit (c : ApiCall) : Nat :=
  if isMutationCall c then mutationRetryLimit else queryRetryLimit

/-- The exponential backoff delay (milliseconds) for retry attempt
attemptIndex, as written in the images-list revision in src/unnamed/part_004:
min(1000 * 2 ** attemptIndex, 30000). -/
def retryDelay (attemptIndex : Nat) : Nat :=
  min (1000 * 2 ^ attemptIndex) 30000

/-- ImageDetailPage state touched by the analyze mutation (src/unnamed/part_006
and part_007): the mutation status, the showDetections flag, and the ambient
toast list, which ImageDetailPage never pushes to. -/
structure ImageDetailState where
  analyzeStatus : MutationStatus
  showDetections : Bool
  toasts : List ToastItem
deriving Repr, DecidableEq

/-- Resolution events of the analyze useMutation of ImageDetailPage. -/
inductive AnalyzeEvent where
  | analyzeResolved
  | analyzeRejected (message : String)
deriving Repr, DecidableEq

/-- Resolution of the analyze useMutation in ImageDetailPage: the hook
registers onSuccess (setShowDetections true) and no onError handler, so a
rejection only moves the hook into its error state - no toast is pushed and
no other component state changes. -/
def imageDetailStep (s : ImageDetailState) : AnalyzeEvent → ImageDetailState
  | .analyzeResolved =>
      if s.analyzeStatus == .pending then
        { s with analyzeStatus := .success, showDetections := true }
      else s
  | .analyzeRejected m =>
      if s.analyzeStatus == .pending then
        { s with analyzeStatus := .failure m }
      else s

/-- The error text ImageDetailPage renders for the analyze mutation: its JSX
reads analyze.isPending for the button guard but never reads analyze.isError
or analyze.error, so no status produces any error text. -/
def renderedAnalyzeError : ImageDetailState → Option String :=
  fun _ => none

/-- The analyze button guard of ImageDetailPage: disabled while the analyze
mutation is pending; this is the only analyze-mutation field the JSX reads. -/
def analyzeButtonDisabled (s : ImageDetailState) : Bool :=
  s.analyzeStatus == .pending

/-- C8 counterexample: a concrete analyze failure is not surfaced to the user.
From the pending state with no toasts, a rejection carrying a concrete
pipeline error moves the analyze mutation into its error state, yet
ImageDetailPage renders no error text, pushes no toast, and merely re-enables
the analyze button - the fail-fast analyzeImage mutation does not surface the
error, contrary to the claim. -/
theorem c8_analyze_error_not_surfaced :
    (imageDetailStep ⟨.pending, false, []⟩
      (.analyzeRejected "502 Bad Gateway: pipeline failed")).analyzeStatus =
      .failure "502 Bad Gateway: pipeline failed" ∧
    renderedAnalyzeError (imageDetailStep ⟨.pending, false, []⟩
      (.analyzeRejected "502 Bad Gateway: pipeline failed")) = none ∧
    (imageDetailStep ⟨.pending, false, []⟩
      (.analyzeRejected "502 Bad Gateway: pipeline failed")).toasts = [] ∧
    analyzeButtonDisabled (imageDetailStep ⟨.pending, false, []⟩
      (.analyzeRejected "502 Bad Gateway: pipeline failed")) = false :=
  ⟨rfl, rfl, rfl, rfl⟩

/-- C8 (amended): only the read queries carry automatic retry - every mutation
call (uploadImage, analyzeImage) has retry count zero, hence fails fast on the
first error, while every read query has the bounded retry count one - and the
backoff delay is exponential: monotone, doubling from one attempt to the next
until it is capped at 30000 ms.  A failed upload is surfaced to the user
(inline error message and error toast in ImageUploadForm), but a failed
analyze is not: ImageDetailPage registers no onError and renders no error
state, so the rejection leaves the toasts untouched and produces no error
text. -/
theorem c8_retry_policy (c : ApiCall) (i : Nat) (s : UploadFormState)
    (t : ImageDetailState) (m : String) :
    (isMutationCall c = true → retryLimit c = 0) ∧
    (isMutationCall c = false → retryLimit c = 1) ∧
    retryLimit .uploadImage = 0 ∧
    retryLimit .analyzeImage = 0 ∧
    retryLimit .listImages = 1 ∧
    retryLimit .listDetections = 1 ∧
    retryLimit .getImage = 1 ∧
    retryLimit c ≤ 1 ∧
    retryDelay i ≤ 30000 ∧
    retryDelay i ≤ retryDelay (i + 1) ∧
    (1000 * 2 ^ (i + 1) ≤ 30000 → retryDelay (i + 1) = 2 * retryDelay i) ∧
    (s.status = .pending →
      renderedUploadError (uploadStep s (.uploadRejected m)) = some m ∧
      (⟨s.nextToastId, m, true⟩ : ToastItem) ∈
        (uploadStep s (.uploadRejected m)).toasts) ∧
    (t.analyzeStatus = .pending →
      (imageDetailStep t (.analyzeRejected m)).analyzeStatus = .failure m ∧
      renderedAnalyzeError (imageDetailStep t (.analyzeRejected m)) = none ∧
      (imageDetailStep t (.analyzeRejected m)).toasts = t.toasts) := by
  refine ⟨?_, ?_, rfl, rfl, rfl, rfl, rfl, ?_, ?_, ?_, ?_, ?_, ?_⟩
  · intro h; simp [retryLimit, h, mutationRetryLimit]
  · intro h; simp [retryLimit, h, queryRetryLimit]
  · cases c <;> decide
  · exact min_le_right _ _
  · exact min_le_min (by
      have : (2 : Nat) ^ i ≤ 2 ^ (i + 1) := Nat.pow_le_pow_right (by omega) (by omega)
      omega) le_rfl
  · intro h
    have h0 : 1000 * 2 ^ i ≤ 30000 := by
      have : (2 : Nat) ^ i ≤ 2 ^ (i + 1) := Nat.pow_le_pow_right (by omega) (by omega)
      omega
    unfold retryDelay
    rw [min_eq_left h, min_eq_left h0]
    ring
  · intro hp
    have hpend : (s.status == MutationStatus.pending) = true := by rw [hp]; rfl
    refine ⟨?_, ?_⟩
    · simp [uploadStep, hpend, renderedUploadError]
    · simp [uploadStep, hpend, pushToast]
  · intro hp
    have hpend : (t.analyzeStatus == MutationStatus.pending) = true := by
      rw [hp]; rfl
    refine ⟨?_, rfl, ?_⟩
    · simp [imageDetailStep, hpend]
    · simp [imageDetailStep, hpend]

/-- C8 witness: the upload mutation retries zero times, the second backoff
delay doubles the first, a concrete failed upload renders its message, and a
concrete failed analyze renders no error text. -/
theorem c8_retry_policy_witness :
    retryLimit .uploadImage = 0 ∧ retryDelay 1 = 2 * retryDelay 0 ∧
    renderedUploadError (uploadStep ⟨some "cat.jpg", .pending, [], 0⟩
      (.uploadRejected "upload failed")) = some "upload failed" ∧
    renderedAnalyzeError (imageDetailStep ⟨.pending, false, []⟩
      (.analyzeRejected "analyze failed")) = none := by
  have h := c8_retry_policy .uploadImage 0 ⟨some "cat.jpg", .pending, [], 0⟩
    ⟨.pending, false, []⟩ "upload failed"
  have h2 := c8_retry_policy .uploadImage 0 ⟨some "cat.jpg", .pending, [], 0⟩
    ⟨.pending, false, []⟩ "analyze failed"
  obtain ⟨ha, -, -, -, -, -, -, -, -, -, hd, hu, -⟩ := h
  obtain ⟨-, -, -, -, -, -, -, -, -, -, -, -, hn⟩ := h2
  exact ⟨ha rfl, hd (by decide), (hu rfl).1, (hn rfl).2.1⟩

/-- A JavaScript value appearing in the params objects of listImages and
listDetections: undefined, null, a string, or a number (modelled as an
integer, covering the page, page_size and the concrete filter values in the
pages). -/
inductive JsVal where
  | undef
  | null
  | str (s : String)
  | num (n : Int)
deriving Repr, DecidableEq

/-- The guard of the URLSearchParams loop in listImages and listDetections:
append the entry when v !== undefined && v !== null && v !== empty-string.
Strict inequality never equates a number with the empty string, so numeric 0
is kept. -/
def keepParam : JsVal → Bool
  | .undef => false
  | .null => false
  | .str s => !(s == "")
  | .num _ => true

/-- String(v) applied to a kept value before appending it. -/
def jsString : JsVal → String
  | .undef => "undefined"
  | .null => "null"
  | .str s => s
  | .num n => toString n

/-- The query pairs built by the Object.entries loop of listImages and
listDetections: exactly the kept entries, in order, stringified. -/
def buildQuery (params : List (String × JsVal)) : List (String × String) :=
  (params.filter (fun kv => keepParam kv.2)).map (fun kv => (kv.1, jsString kv.2))

/-- URLSearchParams.toString over simple values: key=value pairs joined
with ampersands. -/
def renderQuery (pairs : List (String × String)) : String :=
  String.intercalate "&" (pairs.map (fun kv => kv.1 ++ "=" ++ kv.2))

/-- The request URL of listImages for a given entries list of its params
object. -/
def listImagesUrl (params : List (String × JsVal)) : String :=
  "/api/v1/images?" ++ renderQuery (buildQuery params)

/-- The request URL of listDetections for a given entries list of its params
object. -/
def listDetectionsUrl (params : List (String × JsVal)) : String :=
  "/api/v1/detections?" ++ renderQuery (buildQuery params)

theorem buildQuery_append (l1 l2 : List (String × JsVal)) :
    buildQuery (l1 ++ l2) = buildQuery l1 ++ buildQuery l2 := by
  unfold buildQuery
  rw [List.filter_append, List.map_append]

theorem buildQuery_drop_entry (l1 l2 : List (String × JsVal)) (k : String)
    (v : JsVal) (hv : keepParam v = false) :
    buildQuery (l1 ++ (k, v) :: l2) = buildQuery (l1 ++ l2) := by
  rw [buildQuery_append, buildQuery_append]
  congr 1
  unfold buildQuery
  rw [List.filter_cons_of_neg (by simpa using hv)]

/-- C9: the client appends to the query string exactly the entries whose value
is neither undefined, nor null, nor the empty string - a pair (k, s) occurs in
the built query exactly when the params object holds at k a kept value
stringifying to s, and numeric 0 is kept - and inserting a filter entry set to
the empty string, undefined or null anywhere in the params object yields the
identical listImages and listDetections request URLs as omitting the entry
entirely. -/
theorem c9_query_param_elision (params l1 l2 : List (String × JsVal))
    (k : String) (s : String) :
    ((k, s) ∈ buildQuery params ↔
      ∃ v, (k, v) ∈ params ∧ keepParam v = true ∧ jsString v = s) ∧
    keepParam (.num 0) = true ∧
    (keepParam (.str "") = false ∧ keepParam .undef = false ∧
      keepParam .null = false) ∧
    (listImagesUrl (l1 ++ (k, .str "") :: l2) = listImagesUrl (l1 ++ l2) ∧
      listImagesUrl (l1 ++ (k, .undef) :: l2) = listImagesUrl (l1 ++ l2) ∧
      listImagesUrl (l1 ++ (k, .null) :: l2) = listImagesUrl (l1 ++ l2)) ∧
    (listDetectionsUrl (l1 ++ (k, .str "") :: l2) = listDetectionsUrl (l1 ++ l2) ∧
      listDetectionsUrl (l1 ++ (k, .undef) :: l2) = listDetectionsUrl (l1 ++ l2) ∧
      listDetectionsUrl (l1 ++ (k, .null) :: l2) = listDetectionsUrl (l1 ++ l2)) := by
  refine ⟨?_, rfl, ⟨rfl, rfl, rfl⟩, ?_, ?_⟩
  · constructor
    · intro h
      unfold buildQuery at h
      obtain ⟨⟨k2, v⟩, hmem, heq⟩ := List.mem_map.mp h
      obtain ⟨hmem2, hkeep⟩ := List.mem_filter.mp hmem
      simp only [Prod.mk.injEq] at heq
      obtain ⟨hk, hs⟩ := heq
      subst hk
      exact ⟨v, hmem2, by simpa using hkeep, hs⟩
    · rintro ⟨v, hmem, hkeep, hs⟩
      unfold buildQuery
      exact List.mem_map.mpr ⟨(k, v), List.mem_filter.mpr ⟨hmem, by simpa using hkeep⟩,
        by rw [hs]⟩
  · unfold listImagesUrl
    rw [buildQuery_drop_entry l1 l2 k (.str "") rfl,
      buildQuery_drop_entry l1 l2 k .undef rfl,
      buildQuery_drop_entry l1 l2 k .null rfl]
    exact ⟨rfl, rfl, rfl⟩
  · unfold listDetectionsUrl
    rw [buildQuery_drop_entry l1 l2 k (.str "") rfl,
      buildQuery_drop_entry l1 l2 k .undef rfl,
      buildQuery_drop_entry l1 l2 k .null rfl]
    exact ⟨rfl, rfl, rfl⟩

/-- C9 witness: page 1 with an empty status filter produces the pair page=1
and the same listImages URL as omitting the status entry. -/
theorem c9_query_param_elision_witness :
    ("page", "1") ∈ buildQuery [("page", .num 1), ("status", .str "")] ∧
    listImagesUrl ([("page", JsVal.num 1)] ++ ("status", JsVal.str "") :: []) =
      listImagesUrl ([("page", JsVal.num 1)] ++ []) :=
  ⟨((c9_query_param_elision [("page", .num 1), ("status", .str "")]
      [("page", .num 1)] [] "page" "1").1).mpr
        ⟨.num 1, by decide, rfl, rfl⟩,
   (c9_query_param_elision [("page", .num 1), ("status", .str "")]
      [("page", .num 1)] [] "status" "1").2.2.2.1.1⟩

/-- An HTTP response as seen by the shared request helper: status, status
text, the body as text, and the same body for res.json().  The ok flag is the
fetch predicate status in [200, 300). -/
structure HttpResponse where
  status : Nat
  statusText : String
  bodyText : String
deriving Repr, DecidableEq

/-- res.ok per the fetch specification: status in the inclusive range 200-299. -/
def resOk (r : HttpResponse) : Bool :=
  decide (200 ≤ r.status) && decide (r.status < 300)

/-- Outcome of the request helper: a rejected promise carrying the thrown
Error message, the undefined result of a 204, or the parsed JSON body
(represented by the body text handed to the parser). -/
inductive RequestResult where
  | rejected (message : String)
  | noContent
  | json (body : String)
deriving Repr, DecidableEq

/-- The shared request helper of src/frontend/src/api/types.ts: on a non-ok
response it throws an Error whose message is status, statusText and body text;
a 204 yields undefined; otherwise the JSON body is returned. -/
def request (r : HttpResponse) : RequestResult :=
  if resOk r = false then
    .rejected (toString r.status ++ " " ++ r.statusText ++ ": " ++ r.bodyText)
  else if r.status = 204 then .noContent
  else .json r.bodyText

/-- The path and method of the single fetch performed by each public client
function. -/
structure ApiRequest where
  path : String
  method : String
deriving Repr, DecidableEq

/-- The fetch the uploadImage client function performs. -/
def uploadImageReq : ApiRequest := ⟨"/api/v1/images/upload", "POST"⟩

/-- The fetch the getImage client function performs. -/
def getImageReq (id : String) : ApiRequest := ⟨"/api/v1/images/" ++ id, "GET"⟩

/-- The fetch the listImages client function performs. -/
def listImagesReq (params : List (String × JsVal)) : ApiRequest :=
  ⟨listImagesUrl params, "GET"⟩

/-- The fetch the analyzeImage client function performs. -/
def analyzeImageReq (id : String) : ApiRequest :=
  ⟨"/api/v1/images/" ++ id ++ "/analyze", "POST"⟩

/-- The fetch the listImageDetections client function performs. -/
def listImageDetectionsReq (id : String) : ApiRequest :=
  ⟨"/api/v1/images/" ++ id ++ "/detections", "GET"⟩

/-- The fetch the listDetections client function performs. -/
def listDetectionsReq (params : List (String × JsVal)) : ApiRequest :=
  ⟨listDetectionsUrl params, "GET"⟩

/-- A public client function is the request helper applied to the response the
network returns for its one fetch. -/
def callApi (fetchImpl : ApiRequest → HttpResponse) (req : ApiRequest) :
    RequestResult :=
  request (fetchImpl req)

/-- The fetch request of each public client function, so that rejection
behavior can be stated uniformly over all six. -/
def apiRequestOf (fetchParams : List (String × JsVal)) (id : String) :
    ApiCall → ApiRequest
  | .uploadImage => uploadImageReq
  | .getImage => getImageReq id
  | .listImages => listImagesReq fetchParams
  | .analyzeImage => analyzeImageReq id
  | .listImageDetections => listImageDetectionsReq id
  | .listDetections => listDetectionsReq fetchParams

/-- C10: the request helper rejects with the status-statusText-body message
exactly when the response is not ok, returns undefined exactly on an ok 204,
and returns the parsed JSON body on every other ok response; consequently
every public client function rejects exactly on a non-ok response to its
fetch. -/
theorem c10_request_rejects_iff_not_ok (r : HttpResponse)
    (fetchImpl : ApiRequest → HttpResponse)
    (fetchParams : List (String × JsVal)) (id : String) (c : ApiCall) :
    ((∃ msg, request r = .rejected msg) ↔ resOk r = false) ∧
    (resOk r = false →
      request r = .rejected
        (toString r.status ++ " " ++ r.statusText ++ ": " ++ r.bodyText)) ∧
    (resOk r = true → r.status = 204 → request r = .noContent) ∧
    (resOk r = true → r.status ≠ 204 → request r = .json r.bodyText) ∧
    ((∃ msg, callApi fetchImpl (apiRequestOf fetchParams id c) = .rejected msg) ↔
      resOk (fetchImpl (apiRequestOf fetchParams id c)) = false) := by
  have hgen : ∀ r2 : HttpResponse,
      (∃ msg, request r2 = .rejected msg) ↔ resOk r2 = false := by
    intro r2
    constructor
    · rintro ⟨msg, hmsg⟩
      cases h2 : resOk r2 with
      | false => rfl
      | true =>
        simp [request, h2] at hmsg
        split at hmsg
        · exact RequestResult.noConfusion hmsg
        · exact RequestResult.noConfusion hmsg
    · intro hok
      exact ⟨toString r2.status ++ " " ++ r2.statusText ++ ": " ++ r2.bodyText,
        by simp [request, hok]⟩
  refine ⟨hgen r, ?_, ?_, ?_, hgen (fetchImpl (apiRequestOf fetchParams id c))⟩
  · intro hok
    simp [request, hok]
  · intro hok h204
    simp [request, hok, h204]
  · intro hok h204
    simp [request, hok, h204]

/-- C10 witness: a 404 with body detail rejects with the composed message; an
ok 204 yields undefined; an ok 200 yields the body; the listImages client call
rejects exactly when its response is not ok, evaluated at a fetch that always
returns 500. -/
theorem c10_request_rejects_iff_not_ok_witness :
    request ⟨404, "Not Found", "image missing"⟩ =
      .rejected (toString 404 ++ " " ++ "Not Found" ++ ": " ++ "image missing") ∧
    request ⟨204, "No Content", ""⟩ = .noContent ∧
    request ⟨200, "OK", "[]"⟩ = .json "[]" ∧
    ((∃ msg, callApi (fun _ => ⟨500, "Internal Server Error", "boom"⟩)
        (apiRequestOf [] "img-1" .listImages) = .rejected msg) ↔
      resOk ((fun _ : ApiRequest => (⟨500, "Internal Server Error", "boom"⟩ : HttpResponse))
        (apiRequestOf [] "img-1" .listImages)) = false) := by
  have h := c10_request_rejects_iff_not_ok ⟨404, "Not Found", "image missing"⟩
    (fun _ => ⟨500, "Internal Server Error", "boom"⟩) [] "img-1" .listImages
  have h204 := c10_request_rejects_iff_not_ok ⟨204, "No Content", ""⟩
    (fun _ => ⟨500, "Internal Server Error", "boom"⟩) [] "img-1" .listImages
  have h200 := c10_request_rejects_iff_not_ok ⟨200, "OK", "[]"⟩
    (fun _ => ⟨500, "Internal Server Error", "boom"⟩) [] "img-1" .listImages
  exact ⟨h.2.1 (by decide), h204.2.2.1 (by decide) (by decide),
    h200.2.2.2.1 (by decide) (by decide), h.2.2.2.2⟩

end CVApp
